import Mathlib

/-!
Shallow embedding of the `aiolava` client library (`src/aiolava/lava.py`):
a thin asynchronous binding for the Lava payment HTTP API.  The whole
library is the class `Lava`, one method per remote endpoint, all funnelled
through the shared dispatcher `Lava._request`.

Modelling conventions:
* The HTTP transport (`aiohttp` session plus the JSON decoding of the
  response, lines 411-415 of the source) is a parameter
  `Transport := HttpRequest → Except Unit Json`: given the fully built
  request it yields either the decoded JSON body of the response
  (`Except.ok`) or a transport/decoding failure (`Except.error ()`, the
  exception `await responce.json()` raises on a non-JSON body or a failed
  connection).
* Every call returns the pair of its outcome and the list of HTTP requests
  it actually issued, so "zero network calls" is `trace = []` and the
  single-shot dispatch is `trace = [req]`.
* The runtime argument validation performed by the `pydantic`
  `@validate_arguments` decorator on the endpoint methods is embedded as an
  explicit validation step executed before the method body, exactly as the
  decorator runs before the wrapped coroutine; a failure is
  `Outcome.validationError` with the list of offending field names and an
  empty request trace.
* Python `dict` literals become association lists (`List (String × _)`)
  whose keys are pairwise distinct, in source order.
-/

/-- Decoded JSON values, the possible results of `await responce.json()`. -/
inductive Json where
  | null : Json
  | bool (b : Bool) : Json
  | num (q : Rat) : Json
  | str (s : String) : Json
  | arr (elems : List Json) : Json
  | obj (fields : List (String × Json)) : Json

/-- Python values that can appear in an outgoing request `data` mapping:
the endpoint methods put strings (including `pydantic.HttpUrl` instances,
which are `str` subclasses), floats and ints there. -/
inductive PyValue where
  | str (s : String) : PyValue
  | float (q : Rat) : PyValue
  | int (n : Int) : PyValue
deriving DecidableEq

inductive HttpMethod where
  | GET : HttpMethod
  | POST : HttpMethod
deriving DecidableEq

/-- One HTTP request as handed to `session.request(method, url, headers=headers,
data=data)` in `Lava._request`: the method, the full URL, the value of the
`Authorization` header (the only header set), and the form body. -/
structure HttpRequest where
  method : HttpMethod
  url : String
  authorization : String
  body : List (String × PyValue)

/-- The transport: issuing the request and decoding its body as JSON.
`Except.error ()` models the exception raised by `await responce.json()`
when the body is not JSON (or the HTTP call itself fails). -/
abbrev Transport := HttpRequest → Except Unit Json

/-- Outcome of one endpoint call, as observed by the caller. -/
inductive Outcome where
  /-- The method returned the decoded body. -/
  | ok (body : Json) : Outcome
  /-- Branch `raise LavaError(f(...))` fired, carrying `result["code"]` and
  `result["messge"]` (the key spelled exactly as in the source). -/
  | lavaError (code messge : Json) : Outcome
  /-- A `KeyError` escaped from the subscript `result[key]`. -/
  | keyError (key : String) : Outcome
  /-- The transport raised: connection failure or non-JSON body. -/
  | transportError : Outcome
  /-- A `pydantic.ValidationError` raised by `@validate_arguments` before the
  method body ran; carries the names of the offending fields. -/
  | validationError (fields : List String) : Outcome

/-- The strip loop of `Lava._request` (lines 408-410):
`for key in list(data): if data[key] is None: data.pop(key)`.
Every key bound to `None` is removed; the remaining keys keep their order
and values. -/
def stripNone (data : List (String × Option PyValue)) : List (String × PyValue) :=
  data.filterMap (fun kv => kv.2.map (fun v => (kv.1, v)))

/-- First-match lookup in a JSON object's field list (Python `dict` keys are
unique, so first match is the only match). -/
def lookupField : List (String × Json) → String → Option Json
  | [], _ => none
  | (k, v) :: rest, key => if k = key then some v else lookupField rest key

/-- Models `result.get(key)` on a decoded body that is a mapping; `none` otherwise.
In the source this is only ever evaluated under the (always false) guard
`result is Dict`, hence only on mappings. -/
def json_get (j : Json) (key : String) : Option Json :=
  match j with
  | Json.obj fields => lookupField fields key
  | _ => none

/-- Models `result.get("status") == "error"`: true exactly when the body is a
mapping whose `"status"` field is the string `"error"` (Python `==` between
the field's value and the string literal). -/
def statusIsError (j : Json) : Bool :=
  match json_get j "status" with
  | some (Json.str s) => s = "error"
  | _ => false

/-- The guard `result is Dict` from line 416 of `Lava._request`: a Python
identity comparison between the decoded body and the `typing.Dict` object
imported from the `typing` module.  The JSON decoder only ever produces
JSON values (mappings, sequences, strings, numbers, booleans, null), never
the `typing.Dict` class object itself, so the identity test is false for
every decoded body.  (The evident intent was `isinstance(result, dict)`.) -/
def result_is_Dict (_result : Json) : Bool := false

/-- The client object: holds the API key given at construction
(`Lava.__init__` stores it unchanged, performs no validation and no
network activity). -/
structure Lava where
  api_key : String

/-- The fixed base URL: `Lava.path_prefix = "https://api.lava.ru"`. -/
def Lava.path_prefix : String := "https://api.lava.ru"

/-- The request `Lava._request` builds before handing it to the transport:
URL `self.path_prefix + path`, the stored API key verbatim as the
`Authorization` header, and the `data` mapping with `None`-valued keys
removed as the body. -/
def Lava.mkRequest (self : Lava) (method : HttpMethod) (path : String)
    (data : List (String × Option PyValue)) : HttpRequest :=
  ⟨method, Lava.path_prefix ++ path, self.api_key, stripNone data⟩

/-- The shared dispatcher `Lava._request` (lines 403-419).  Builds the
request, issues it through the transport, and inspects the decoded body:
under the guard `result is Dict and result.get("status") == "error"` it
raises `LavaError(f'{result["code"]}: {result["messge"]}')` (evaluating
the two subscripts, each of which can itself raise `KeyError`); otherwise
it returns the decoded body unchanged.  The second component is the list
of HTTP requests issued during the call. -/
def Lava._request (self : Lava) (transport : Transport) (method : HttpMethod)
    (path : String) (data : List (String × Option PyValue)) :
    Outcome × List HttpRequest :=
  let req := self.mkRequest method path data
  match transport req with
  | Except.error _ => (Outcome.transportError, [req])
  | Except.ok result =>
    if result_is_Dict result && statusIsError result then
      match json_get result "code" with
      | none => (Outcome.keyError "code", [req])
      | some code =>
        match json_get result "messge" with
        | none => (Outcome.keyError "messge", [req])
        | some messge => (Outcome.lavaError code messge, [req])
    else (Outcome.ok result, [req])

/-- Endpoint `Lava.test_ping`: `GET /test/ping`, no body (the dispatcher's `data`
defaults to the empty mapping). -/
def Lava.test_ping (self : Lava) (transport : Transport) :
    Outcome × List HttpRequest :=
  self._request transport HttpMethod.GET "/test/ping" []

/-- Endpoint `Lava.wallet_list`: `GET /wallet/list`, no body. -/
def Lava.wallet_list (self : Lava) (transport : Transport) :
    Outcome × List HttpRequest :=
  self._request transport HttpMethod.GET "/wallet/list" []

/-- Endpoint `Lava.invoice_generate_secret_key`: `GET /invoice/generate-secret-key`,
no body. -/
def Lava.invoice_generate_secret_key (self : Lava) (transport : Transport) :
    Outcome × List HttpRequest :=
  self._request transport HttpMethod.GET "/invoice/generate-secret-key" []

/-- Value of a run of decimal digit characters. -/
def digitsVal (cs : List Char) : Nat :=
  cs.foldl (fun n c => 10 * n + (c.toNat - 48)) 0

/-- Modelled from the ambient library: the decimal-string syntax accepted by
Python's `float(...)`, which is what `pydantic`'s `float` validator applies
to string input.  Accepts an optional sign, an integer part and/or a
fractional part separated by `.`, and an optional decimal exponent;
everything else (in particular non-numeric text) is rejected.  The special
spellings `inf`/`nan` and embedded underscores accepted by CPython are
omitted: the claims only depend on non-numeric input being rejected and on
ordinary numerals being accepted. -/
def parseFloat? (s : String) : Option Rat :=
  let cs := s.toList
  let (neg, cs1) :=
    match cs with
    | '-' :: rest => (true, rest)
    | '+' :: rest => (false, rest)
    | _ => (false, cs)
  let intPart := cs1.takeWhile Char.isDigit
  let rest1 := cs1.dropWhile Char.isDigit
  let (fracPart, rest2) :=
    match rest1 with
    | '.' :: tl => (tl.takeWhile Char.isDigit, tl.dropWhile Char.isDigit)
    | _ => ([], rest1)
  if intPart.isEmpty && fracPart.isEmpty &&
      !(match rest1 with | '.' :: _ => true | _ => false) then none
  else if intPart.isEmpty && fracPart.isEmpty then none
  else
    let mantissa : Rat :=
      (digitsVal intPart : Rat) + (digitsVal fracPart : Rat) / ((10 : Rat) ^ fracPart.length)
    let signed : Rat := if neg then -mantissa else mantissa
    match rest2 with
    | [] => some signed
    | e :: tl =>
      if e = 'e' || e = 'E' then
        let (eneg, tl1) :=
          match tl with
          | '-' :: r => (true, r)
          | '+' :: r => (false, r)
          | _ => (false, tl)
        if tl1 ≠ [] && tl1.all Char.isDigit then
          let ex := digitsVal tl1
          some (if eneg then signed / ((10 : Rat) ^ ex) else signed * ((10 : Rat) ^ ex))
        else none
      else none

/-- Modelled from the ambient library: the coercion `pydantic`'s `float`
validator applies to an argument annotated `float` (`amount`, `sum`).
A float is kept, an int is widened, a string is parsed as a decimal
numeral; anything unparsable yields `none`, i.e. a `ValidationError`. -/
def coerceFloat : PyValue → Option Rat
  | PyValue.float q => some q
  | PyValue.int n => some (n : Rat)
  | PyValue.str s => parseFloat? s

/-- Modelled from the ambient library: the `pydantic.HttpUrl` validator
applied to arguments annotated `HttpUrl` (`hook_url`, `success_url`,
`fail_url`, `url`), simplified to its structural core: the string must be
an absolute URL of scheme `http` or `https` with a nonempty dotted host,
and at most 2083 characters long.  The claims only depend on strings that
are not well-formed absolute URLs being rejected and on ordinary
`https://host.tld/...` URLs being accepted. -/
def isValidHttpUrl (s : String) : Bool :=
  let cs := s.toList
  let afterScheme :=
    if cs.take 7 = ['h', 't', 't', 'p', ':', '/', '/'] then some (cs.drop 7)
    else if cs.take 8 = ['h', 't', 't', 'p', 's', ':', '/', '/'] then some (cs.drop 8)
    else none
  match afterScheme with
  | none => false
  | some rest =>
    let host := rest.takeWhile
      (fun c => !(c = '/' || c = '?' || c = '#' || c = ':' || c = '@'))
    !host.isEmpty && host.contains '.' && decide (cs.length ≤ 2083)

/-- Validation of an `Optional[HttpUrl]` argument: `None` passes (no value
to validate), a present string must satisfy the URL validator. -/
def checkOptUrl : Option String → Bool
  | none => true
  | some u => isValidHttpUrl u

/-- Endpoint `Lava.withdraw_create`: validates `amount : float` and
`hook_url : Optional[HttpUrl]` (via `@validate_arguments`), then
`POST /withdraw/create` with the eight-key `data` mapping of lines
101-110.  On validation failure no request is issued. -/
def Lava.withdraw_create (self : Lava) (transport : Transport)
    (account : String) (amount : PyValue) (service : String) (wallet_to : String)
    (order_id : Option String) (hook_url : Option String)
    (substract : Option Int) (comment : Option String) :
    Outcome × List HttpRequest :=
  let errs := (if (coerceFloat amount).isNone then ["amount"] else [])
      ++ (if checkOptUrl hook_url then [] else ["hook_url"])
  match coerceFloat amount with
  | none => (Outcome.validationError errs, [])
  | some amt =>
    if checkOptUrl hook_url then
      self._request transport HttpMethod.POST "/withdraw/create"
        [("account", some (PyValue.str account)),
         ("amount", some (PyValue.float amt)),
         ("service", some (PyValue.str service)),
         ("wallet_to", some (PyValue.str wallet_to)),
         ("order_id", order_id.map PyValue.str),
         ("hook_url", hook_url.map PyValue.str),
         ("substract", substract.map PyValue.int),
         ("comment", comment.map PyValue.str)]
    else (Outcome.validationError errs, [])

/-- Endpoint `Lava.withdraw_info`: `POST /withdraw/info` with `{"id": id}`. -/
def Lava.withdraw_info (self : Lava) (transport : Transport) (id : String) :
    Outcome × List HttpRequest :=
  self._request transport HttpMethod.POST "/withdraw/info"
    [("id", some (PyValue.str id))]

/-- Endpoint `Lava.transfer_create`: validates `amount : float`, then
`POST /transfer/create` with the five-key `data` mapping of lines
165-171. -/
def Lava.transfer_create (self : Lava) (transport : Transport)
    (account_from : String) (account_to : String) (amount : PyValue)
    (subtract : Option Int) (comment : Option String) :
    Outcome × List HttpRequest :=
  match coerceFloat amount with
  | none => (Outcome.validationError ["amount"], [])
  | some amt =>
    self._request transport HttpMethod.POST "/transfer/create"
      [("account_from", some (PyValue.str account_from)),
       ("account_to", some (PyValue.str account_to)),
       ("amount", some (PyValue.float amt)),
       ("subtract", subtract.map PyValue.int),
       ("comment", comment.map PyValue.str)]

/-- Endpoint `Lava.transfer_info`: `POST /transfer/info` with `{"id": id}`. -/
def Lava.transfer_info (self : Lava) (transport : Transport) (id : String) :
    Outcome × List HttpRequest :=
  self._request transport HttpMethod.POST "/transfer/info"
    [("id", some (PyValue.str id))]

/-- Endpoint `Lava.transactions_list`: all six parameters optional, no structurally
validated field; `POST /transactions/list` with the six-key `data` mapping
of lines 240-247. -/
def Lava.transactions_list (self : Lava) (transport : Transport)
    (transfer_type : Option String) (account : Option String)
    (period_start : Option String) (period_end : Option String)
    (offset : Option Int) (limit : Option Int) :
    Outcome × List HttpRequest :=
  self._request transport HttpMethod.POST "/transactions/list"
    [("transfer_type", transfer_type.map PyValue.str),
     ("account", account.map PyValue.str),
     ("period_start", period_start.map PyValue.str),
     ("period_end", period_end.map PyValue.str),
     ("offset", offset.map PyValue.int),
     ("limit", limit.map PyValue.int)]

/-- Endpoint `Lava.invoice_create`: validates `sum : float` and the three
`Optional[HttpUrl]` arguments, then `POST /invoice/create` with the
twelve-key `data` mapping of lines 309-322. -/
def Lava.invoice_create (self : Lava) (transport : Transport)
    (wallet_to : String) (sum : PyValue)
    (order_id : Option String) (hook_url : Option String)
    (success_url : Option String) (fail_url : Option String)
    (exprire : Option Int) (substract : Option Int)
    (custom_fields : Option String) (comment : Option String)
    (merchant_id : Option String) (merchant_name : Option String) :
    Outcome × List HttpRequest :=
  let errs := (if (coerceFloat sum).isNone then ["sum"] else [])
      ++ (if checkOptUrl hook_url then [] else ["hook_url"])
      ++ (if checkOptUrl success_url then [] else ["success_url"])
      ++ (if checkOptUrl fail_url then [] else ["fail_url"])
  match coerceFloat sum with
  | none => (Outcome.validationError errs, [])
  | some s' =>
    if checkOptUrl hook_url && checkOptUrl success_url && checkOptUrl fail_url then
      self._request transport HttpMethod.POST "/invoice/create"
        [("wallet_to", some (PyValue.str wallet_to)),
         ("sum", some (PyValue.float s')),
         ("order_id", order_id.map PyValue.str),
         ("hook_url", hook_url.map PyValue.str),
         ("success_url", success_url.map PyValue.str),
         ("fail_url", fail_url.map PyValue.str),
         ("exprire", exprire.map PyValue.int),
         ("substract", substract.map PyValue.int),
         ("custom_fields", custom_fields.map PyValue.str),
         ("comment", comment.map PyValue.str),
         ("merchant_id", merchant_id.map PyValue.str),
         ("merchant_name", merchant_name.map PyValue.str)]
    else (Outcome.validationError errs, [])

/-- Endpoint `Lava.invoice_info`: both parameters optional, no structurally
validated field and no "exactly one of id/order_id" check;
`POST /invoice/info` with `{"id": id, "order_id": order_id}`. -/
def Lava.invoice_info (self : Lava) (transport : Transport)
    (id : Option String) (order_id : Option String) :
    Outcome × List HttpRequest :=
  self._request transport HttpMethod.POST "/invoice/info"
    [("id", id.map PyValue.str), ("order_id", order_id.map PyValue.str)]

/-- Endpoint `Lava.invoice_set_webhook`: validates the required `url : HttpUrl`,
then `POST /invoice/set-webhook` with `{"url": url}`. -/
def Lava.invoice_set_webhook (self : Lava) (transport : Transport)
    (url : String) : Outcome × List HttpRequest :=
  if isValidHttpUrl url then
    self._request transport HttpMethod.POST "/invoice/set-webhook"
      [("url", some (PyValue.str url))]
  else (Outcome.validationError ["url"], [])

/-! ### Shared lemmas about the dispatcher -/

/-- The dispatcher `Lava._request` issues exactly one HTTP request, the one built by
`Lava.mkRequest`, on every control path (success, business error and
transport failure alike). -/
theorem Lava.request_trace (self : Lava) (transport : Transport)
    (method : HttpMethod) (path : String)
    (data : List (String × Option PyValue)) :
    (self._request transport method path data).2 =
      [self.mkRequest method path data] := by
  cases h : transport (self.mkRequest method path data) with
  | error e => simp [Lava._request, h]
  | ok result => simp [Lava._request, h, result_is_Dict]

/-- The dispatcher itself never produces a `ValidationError`: validation
lives entirely in the `@validate_arguments` layer of the endpoint
methods. -/
theorem Lava.request_not_validation (self : Lava) (transport : Transport)
    (method : HttpMethod) (path : String)
    (data : List (String × Option PyValue)) (fields : List String) :
    (self._request transport method path data).1 ≠
      Outcome.validationError fields := by
  cases h : transport (self.mkRequest method path data) with
  | error e => simp [Lava._request, h]
  | ok result => simp [Lava._request, h, result_is_Dict]

/-- A key bound to `None` in a `data` mapping with pairwise-distinct keys
appears with no value at all in the stripped mapping. -/
theorem stripNone_not_mem_of_none (data : List (String × Option PyValue))
    (k : String) (hk : (k, (none : Option PyValue)) ∈ data)
    (hnodup : (data.map Prod.fst).Nodup) (v : PyValue) :
    (k, v) ∉ stripNone data := by
  intro hv
  rw [stripNone, List.mem_filterMap] at hv
  obtain ⟨⟨k', ov⟩, hmem, heq⟩ := hv
  cases ov with
  | none => simp at heq
  | some w =>
    simp only [Option.map_some', Option.some.injEq, Prod.mk.injEq] at heq
    obtain ⟨hk', hw⟩ := heq
    subst hk'
    have hcontra := List.inj_on_of_nodup_map hnodup hk hmem rfl
    simp at hcontra

/-! ### Concrete simulated transports and bodies used by the tests -/

/-- The simulated failure body of the spec's acceptance test:
`{"status": "error", "code": "E1", "message": "bad account"}`. -/
def errorBody : Json :=
  Json.obj [("status", Json.str "error"), ("code", Json.str "E1"),
    ("message", Json.str "bad account")]

/-- A transport that answers every request with `errorBody`. -/
def errorTransport : Transport := fun _ => Except.ok errorBody

/-- A transport whose response body is not JSON: `await responce.json()`
raises on every request. -/
def failTransport : Transport := fun _ => Except.error ()

/-- The spec's well-formed success body for `wallet_list`:
`[{"account": "R10000001", "currency": "RUB", "balance": "1500.00"}]`. -/
def walletListBody : Json :=
  Json.arr [Json.obj [("account", Json.str "R10000001"),
    ("currency", Json.str "RUB"), ("balance", Json.str "1500.00")]]

/-- A transport that answers every request with `walletListBody`. -/
def walletListTransport : Transport := fun _ => Except.ok walletListBody

/-! ### Claim theorems -/

/-- Claim C1 (code bug): given the simulated transport that returns
`{"status": "error", "code": "E1", "message": "bad account"}` for every
request, every endpoint method returns that body as its result instead of
raising `LavaError`.  The body does satisfy the `status == "error"`
convention (second conjunct), but the guard on line 416 compares the
decoded body by identity against the `typing.Dict` object (`result is
Dict`), which is false for every decoded body (first conjunct), so the
`raise LavaError(...)` branch is unreachable — contradicting the spec's
stated (and evidently intended) behavior. -/
theorem error_body_returned_not_raised :
    result_is_Dict errorBody = false ∧
    statusIsError errorBody = true ∧
    ((Lava.mk "t").test_ping errorTransport).1 = Outcome.ok errorBody ∧
    ((Lava.mk "t").wallet_list errorTransport).1 = Outcome.ok errorBody ∧
    ((Lava.mk "t").withdraw_create errorTransport "R10000001"
        (PyValue.float 100) "card" "4111111111111111" none none none
        none).1 = Outcome.ok errorBody ∧
    ((Lava.mk "t").withdraw_info errorTransport "w1").1 =
      Outcome.ok errorBody ∧
    ((Lava.mk "t").transfer_create errorTransport "R10000001" "R10000002"
        (PyValue.float 1) none none).1 = Outcome.ok errorBody ∧
    ((Lava.mk "t").transfer_info errorTransport "t1").1 =
      Outcome.ok errorBody ∧
    ((Lava.mk "t").transactions_list errorTransport none none none none
        none none).1 = Outcome.ok errorBody ∧
    ((Lava.mk "t").invoice_create errorTransport "R10000001"
        (PyValue.float 100) none none none none none none none none none
        none).1 = Outcome.ok errorBody ∧
    ((Lava.mk "t").invoice_info errorTransport (some "i1") none).1 =
      Outcome.ok errorBody ∧
    ((Lava.mk "t").invoice_set_webhook errorTransport
        "https://example.com/hook").1 = Outcome.ok errorBody ∧
    ((Lava.mk "t").invoice_generate_secret_key errorTransport).1 =
      Outcome.ok errorBody :=
  ⟨rfl, rfl, rfl, rfl, rfl, rfl, rfl, rfl, rfl, rfl, rfl, rfl, rfl⟩

/-- Claim C2: the dispatcher issues exactly the request built from the
`data` mapping with every `None`-valued key removed, so an optional
parameter left unset (its key bound to `None`, the keys being pairwise
distinct as in a Python `dict`) has no entry of any value in the
transmitted body. -/
theorem unset_optional_params_omitted_from_body (self : Lava)
    (transport : Transport) (method : HttpMethod) (path : String)
    (data : List (String × Option PyValue)) (k : String)
    (hk : (k, (none : Option PyValue)) ∈ data)
    (hnodup : (data.map Prod.fst).Nodup) :
    (self._request transport method path data).2 =
      [self.mkRequest method path data] ∧
    (self.mkRequest method path data).body = stripNone data ∧
    ∀ v : PyValue, (k, v) ∉ (self.mkRequest method path data).body :=
  ⟨Lava.request_trace self transport method path data, rfl,
    fun v => stripNone_not_mem_of_none data k hk hnodup v⟩

/-- Witness for C2 at a concrete input: a two-key mapping whose second key
is unset. -/
theorem unset_optional_params_omitted_from_body_witness :
    ((("b" : String), (none : Option PyValue)) ∈
      [(("a" : String), some (PyValue.str "x")),
       (("b" : String), (none : Option PyValue))]) ∧
    (([(("a" : String), some (PyValue.str "x")),
       (("b" : String), (none : Option PyValue))].map Prod.fst).Nodup) ∧
    (((Lava.mk "key")._request failTransport HttpMethod.POST "/transfer/create"
        [("a", some (PyValue.str "x")), ("b", none)]).2 =
      [(Lava.mk "key").mkRequest HttpMethod.POST "/transfer/create"
        [("a", some (PyValue.str "x")), ("b", none)]] ∧
    ((Lava.mk "key").mkRequest HttpMethod.POST "/transfer/create"
        [("a", some (PyValue.str "x")), ("b", none)]).body =
      stripNone [("a", some (PyValue.str "x")), ("b", none)] ∧
    ∀ v : PyValue, ("b", v) ∉
      ((Lava.mk "key").mkRequest HttpMethod.POST "/transfer/create"
        [("a", some (PyValue.str "x")), ("b", none)]).body) :=
  ⟨by decide, by decide,
    unset_optional_params_omitted_from_body (Lava.mk "key") failTransport
      HttpMethod.POST "/transfer/create"
      [("a", some (PyValue.str "x")), ("b", none)] "b" (by decide)
      (by decide)⟩

/-- Claim C3: when the transport's JSON decoding fails (non-JSON body,
e.g. an HTML error page), the call surfaces the transport's error and in
particular never raises `LavaError`. -/
theorem non_json_response_raises_transport_error (self : Lava)
    (transport : Transport) (method : HttpMethod) (path : String)
    (data : List (String × Option PyValue))
    (h : transport (self.mkRequest method path data) = Except.error ()) :
    (self._request transport method path data).1 = Outcome.transportError ∧
    ∀ code messge, (self._request transport method path data).1 ≠
      Outcome.lavaError code messge := by
  refine ⟨?_, ?_⟩ <;> simp [Lava._request, h]

/-- Witness for C3 at a concrete input: the always-failing transport on
`test_ping`'s request. -/
theorem non_json_response_raises_transport_error_witness :
    (failTransport ((Lava.mk "k").mkRequest HttpMethod.GET "/test/ping" []) =
      Except.error ()) ∧
    (((Lava.mk "k")._request failTransport HttpMethod.GET "/test/ping" []).1 =
      Outcome.transportError ∧
    ∀ code messge,
      ((Lava.mk "k")._request failTransport HttpMethod.GET "/test/ping" []).1 ≠
        Outcome.lavaError code messge) :=
  ⟨rfl, non_json_response_raises_transport_error (Lava.mk "k") failTransport
    HttpMethod.GET "/test/ping" [] rfl⟩

/-- Claim C6: when the decoded body does not signal a business failure,
the dispatcher returns it to the caller exactly as decoded — no
restructuring, renaming or filtering. -/
theorem non_error_body_returned_unchanged (self : Lava)
    (transport : Transport) (method : HttpMethod) (path : String)
    (data : List (String × Option PyValue)) (body : Json)
    (h : transport (self.mkRequest method path data) = Except.ok body)
    (_hs : statusIsError body = false) :
    (self._request transport method path data).1 = Outcome.ok body := by
  simp [Lava._request, h, result_is_Dict]

/-- Witness for C6 at a concrete input: the spec's `wallet_list` success
body comes back field-for-field unchanged. -/
theorem non_error_body_returned_unchanged_witness :
    (walletListTransport
        ((Lava.mk "k").mkRequest HttpMethod.GET "/wallet/list" []) =
      Except.ok walletListBody) ∧
    statusIsError walletListBody = false ∧
    ((Lava.mk "k")._request walletListTransport HttpMethod.GET
        "/wallet/list" []).1 = Outcome.ok walletListBody :=
  ⟨rfl, rfl, non_error_body_returned_unchanged (Lava.mk "k")
    walletListTransport HttpMethod.GET "/wallet/list" [] walletListBody
    rfl rfl⟩

/-- Claim C4: passing a string that is not a well-formed absolute URL to
any URL-typed parameter (`hook_url` of `withdraw_create`; `hook_url`,
`success_url`, `fail_url` of `invoice_create`; `url` of
`invoice_set_webhook`) makes the `@validate_arguments` layer raise a
`ValidationError` naming that field, and the request trace is empty:
zero HTTP requests are issued. -/
theorem malformed_url_rejected_with_zero_requests (self : Lava)
    (transport : Transport) (u : String) (hu : isValidHttpUrl u = false)
    (account service wallet_to wallet_to2 : String) (amount sum : PyValue)
    (order_id comment : Option String) (substract exprire : Option Int)
    (other_url1 other_url2 : Option String)
    (custom_fields merchant_id merchant_name : Option String) :
    (∃ fields, "hook_url" ∈ fields ∧
      self.withdraw_create transport account amount service wallet_to
        order_id (some u) substract comment =
          (Outcome.validationError fields, [])) ∧
    (∃ fields, "hook_url" ∈ fields ∧
      self.invoice_create transport wallet_to2 sum order_id (some u)
        other_url1 other_url2 exprire substract custom_fields comment
        merchant_id merchant_name =
          (Outcome.validationError fields, [])) ∧
    (∃ fields, "success_url" ∈ fields ∧
      self.invoice_create transport wallet_to2 sum order_id other_url1
        (some u) other_url2 exprire substract custom_fields comment
        merchant_id merchant_name =
          (Outcome.validationError fields, [])) ∧
    (∃ fields, "fail_url" ∈ fields ∧
      self.invoice_create transport wallet_to2 sum order_id other_url1
        other_url2 (some u) exprire substract custom_fields comment
        merchant_id merchant_name =
          (Outcome.validationError fields, [])) ∧
    self.invoice_set_webhook transport u =
      (Outcome.validationError ["url"], []) := by
  refine ⟨?_, ?_, ?_, ?_, ?_⟩
  · cases hcf : coerceFloat amount with
    | none =>
      exact ⟨["amount", "hook_url"], by simp,
        by simp [Lava.withdraw_create, hcf, checkOptUrl, hu]⟩
    | some amt =>
      exact ⟨["hook_url"], by simp,
        by simp [Lava.withdraw_create, hcf, checkOptUrl, hu]⟩
  · refine ⟨(if (coerceFloat sum).isNone then ["sum"] else []) ++
        (if checkOptUrl (some u) then [] else ["hook_url"]) ++
        (if checkOptUrl other_url1 then [] else ["success_url"]) ++
        (if checkOptUrl other_url2 then [] else ["fail_url"]), ?_, ?_⟩
    · simp [checkOptUrl, hu]
    · cases hcf : coerceFloat sum with
      | none => simp [Lava.invoice_create, hcf, checkOptUrl, hu]
      | some s' => simp [Lava.invoice_create, hcf, checkOptUrl, hu]
  · refine ⟨(if (coerceFloat sum).isNone then ["sum"] else []) ++
        (if checkOptUrl other_url1 then [] else ["hook_url"]) ++
        (if checkOptUrl (some u) then [] else ["success_url"]) ++
        (if checkOptUrl other_url2 then [] else ["fail_url"]), ?_, ?_⟩
    · simp [checkOptUrl, hu]
    · cases hcf : coerceFloat sum with
      | none => simp [Lava.invoice_create, hcf, checkOptUrl, hu]
      | some s' => simp [Lava.invoice_create, hcf, checkOptUrl, hu]
  · refine ⟨(if (coerceFloat sum).isNone then ["sum"] else []) ++
        (if checkOptUrl other_url1 then [] else ["hook_url"]) ++
        (if checkOptUrl other_url2 then [] else ["success_url"]) ++
        (if checkOptUrl (some u) then [] else ["fail_url"]), ?_, ?_⟩
    · simp [checkOptUrl, hu]
    · cases hcf : coerceFloat sum with
      | none => simp [Lava.invoice_create, hcf, checkOptUrl, hu]
      | some s' => simp [Lava.invoice_create, hcf, checkOptUrl, hu]
  · simp [Lava.invoice_set_webhook, hu]

/-- Witness for C4 at a concrete input: `"not a url"` is rejected by every
URL-typed parameter with an empty request trace. -/
theorem malformed_url_rejected_with_zero_requests_witness :
    isValidHttpUrl "not a url" = false ∧
    ((∃ fields, "hook_url" ∈ fields ∧
      (Lava.mk "k").withdraw_create failTransport "R1" (PyValue.float 1)
        "card" "W1" none (some "not a url") none none =
          (Outcome.validationError fields, [])) ∧
    (∃ fields, "hook_url" ∈ fields ∧
      (Lava.mk "k").invoice_create failTransport "W2" (PyValue.float 1)
        none (some "not a url") none none none none none none none none =
          (Outcome.validationError fields, [])) ∧
    (∃ fields, "success_url" ∈ fields ∧
      (Lava.mk "k").invoice_create failTransport "W2" (PyValue.float 1)
        none none (some "not a url") none none none none none none none =
          (Outcome.validationError fields, [])) ∧
    (∃ fields, "fail_url" ∈ fields ∧
      (Lava.mk "k").invoice_create failTransport "W2" (PyValue.float 1)
        none none none (some "not a url") none none none none none none =
          (Outcome.validationError fields, [])) ∧
    (Lava.mk "k").invoice_set_webhook failTransport "not a url" =
      (Outcome.validationError ["url"], [])) :=
  ⟨by decide,
    malformed_url_rejected_with_zero_requests (Lava.mk "k") failTransport
      "not a url" (by decide) "R1" "card" "W1" "W2" (PyValue.float 1)
      (PyValue.float 1) none none none none none none none none none⟩

/-- Claim C5: a value not representable as a number passed to `amount`
(`withdraw_create`, `transfer_create`) or `sum` (`invoice_create`) makes
the `@validate_arguments` layer raise a `ValidationError` naming that
field, and the request trace is empty: zero HTTP requests are issued. -/
theorem non_numeric_amount_rejected_with_zero_requests (self : Lava)
    (transport : Transport) (v : PyValue) (hv : coerceFloat v = none)
    (account service wallet_to account_from account_to wallet_to2 : String)
    (order_id comment comment2 : Option String)
    (hook_url success_url fail_url : Option String)
    (substract subtract exprire : Option Int)
    (custom_fields merchant_id merchant_name : Option String) :
    (∃ fields, "amount" ∈ fields ∧
      self.withdraw_create transport account v service wallet_to order_id
        hook_url substract comment = (Outcome.validationError fields, [])) ∧
    (self.transfer_create transport account_from account_to v subtract
      comment2 = (Outcome.validationError ["amount"], [])) ∧
    (∃ fields, "sum" ∈ fields ∧
      self.invoice_create transport wallet_to2 v order_id hook_url
        success_url fail_url exprire substract custom_fields comment
        merchant_id merchant_name = (Outcome.validationError fields, [])) := by
  refine ⟨?_, ?_, ?_⟩
  · refine ⟨["amount"] ++ (if checkOptUrl hook_url then [] else ["hook_url"]),
      by simp, ?_⟩
    simp [Lava.withdraw_create, hv]
  · simp [Lava.transfer_create, hv]
  · refine ⟨["sum"] ++ (if checkOptUrl hook_url then [] else ["hook_url"]) ++
      (if checkOptUrl success_url then [] else ["success_url"]) ++
      (if checkOptUrl fail_url then [] else ["fail_url"]), by simp, ?_⟩
    simp [Lava.invoice_create, hv]

/-- Witness for C5 at a concrete input: the string `"abc"` is not a
numeral, so all three endpoints reject it locally. -/
theorem non_numeric_amount_rejected_with_zero_requests_witness :
    coerceFloat (PyValue.str "abc") = none ∧
    ((∃ fields, "amount" ∈ fields ∧
      (Lava.mk "k").withdraw_create failTransport "R1" (PyValue.str "abc")
        "card" "W1" none none none none =
          (Outcome.validationError fields, [])) ∧
    ((Lava.mk "k").transfer_create failTransport "R1" "R2"
      (PyValue.str "abc") none none = (Outcome.validationError ["amount"], [])) ∧
    (∃ fields, "sum" ∈ fields ∧
      (Lava.mk "k").invoice_create failTransport "W2" (PyValue.str "abc")
        none none none none none none none none none none =
          (Outcome.validationError fields, []))) :=
  ⟨by decide,
    non_numeric_amount_rejected_with_zero_requests (Lava.mk "k")
      failTransport (PyValue.str "abc") (by decide) "R1" "card" "W1" "R1"
      "R2" "W2" none none none none none none none none none none none
      none⟩

/-- Claim C7: every endpoint method dispatches exactly one request with
the fixed method and path of its endpoint: `GET` with an empty body for
`test_ping`, `wallet_list` and `invoice_generate_secret_key`, and `POST`
carrying the (stripped) parameter mapping as the body for the rest.
Optional parameters are left unset here, exhibiting the empty `GET`
bodies and the required-only `POST` bodies; `invoice_set_webhook` is
shown at a concrete well-formed URL since its only parameter is
validated. -/
theorem endpoint_method_and_path_table (self : Lava) (transport : Transport)
    (account service wallet_to account_from account_to : String)
    (wid tid iid oid : String) (q1 q2 q3 : Rat) :
    (self.test_ping transport).2 =
      [⟨HttpMethod.GET, Lava.path_prefix ++ "/test/ping",
        self.api_key, []⟩] ∧
    (self.wallet_list transport).2 =
      [⟨HttpMethod.GET, Lava.path_prefix ++ "/wallet/list",
        self.api_key, []⟩] ∧
    (self.invoice_generate_secret_key transport).2 =
      [⟨HttpMethod.GET, Lava.path_prefix ++ "/invoice/generate-secret-key",
        self.api_key, []⟩] ∧
    (self.withdraw_create transport account (PyValue.float q1) service
        wallet_to none none none none).2 =
      [⟨HttpMethod.POST, Lava.path_prefix ++ "/withdraw/create",
        self.api_key,
        [("account", PyValue.str account), ("amount", PyValue.float q1),
         ("service", PyValue.str service),
         ("wallet_to", PyValue.str wallet_to)]⟩] ∧
    (self.withdraw_info transport wid).2 =
      [⟨HttpMethod.POST, Lava.path_prefix ++ "/withdraw/info",
        self.api_key, [("id", PyValue.str wid)]⟩] ∧
    (self.transfer_create transport account_from account_to
        (PyValue.float q2) none none).2 =
      [⟨HttpMethod.POST, Lava.path_prefix ++ "/transfer/create",
        self.api_key,
        [("account_from", PyValue.str account_from),
         ("account_to", PyValue.str account_to),
         ("amount", PyValue.float q2)]⟩] ∧
    (self.transfer_info transport tid).2 =
      [⟨HttpMethod.POST, Lava.path_prefix ++ "/transfer/info",
        self.api_key, [("id", PyValue.str tid)]⟩] ∧
    (self.transactions_list transport none none none none none none).2 =
      [⟨HttpMethod.POST, Lava.path_prefix ++ "/transactions/list",
        self.api_key, []⟩] ∧
    (self.invoice_create transport wallet_to (PyValue.float q3) none none
        none none none none none none none none).2 =
      [⟨HttpMethod.POST, Lava.path_prefix ++ "/invoice/create",
        self.api_key,
        [("wallet_to", PyValue.str wallet_to),
         ("sum", PyValue.float q3)]⟩] ∧
    (self.invoice_info transport (some iid) (some oid)).2 =
      [⟨HttpMethod.POST, Lava.path_prefix ++ "/invoice/info",
        self.api_key,
        [("id", PyValue.str iid), ("order_id", PyValue.str oid)]⟩] ∧
    (self.invoice_set_webhook transport "https://example.com/hook").2 =
      [⟨HttpMethod.POST, Lava.path_prefix ++ "/invoice/set-webhook",
        self.api_key,
        [("url", PyValue.str "https://example.com/hook")]⟩] :=
  ⟨Lava.request_trace self transport HttpMethod.GET "/test/ping" [],
   Lava.request_trace self transport HttpMethod.GET "/wallet/list" [],
   Lava.request_trace self transport HttpMethod.GET
     "/invoice/generate-secret-key" [],
   Lava.request_trace self transport HttpMethod.POST "/withdraw/create" _,
   Lava.request_trace self transport HttpMethod.POST "/withdraw/info" _,
   Lava.request_trace self transport HttpMethod.POST "/transfer/create" _,
   Lava.request_trace self transport HttpMethod.POST "/transfer/info" _,
   Lava.request_trace self transport HttpMethod.POST "/transactions/list" _,
   Lava.request_trace self transport HttpMethod.POST "/invoice/create" _,
   Lava.request_trace self transport HttpMethod.POST "/invoice/info" _,
   Lava.request_trace self transport HttpMethod.POST "/invoice/set-webhook" _⟩

/-- Claim C8: every dispatched request's URL is the fixed base URL
(`"https://api.lava.ru"`) joined with the endpoint's path, and the stored
credential string is attached verbatim as its `Authorization` header. -/
theorem request_url_and_authorization (self : Lava) (transport : Transport)
    (method : HttpMethod) (path : String)
    (data : List (String × Option PyValue)) :
    Lava.path_prefix = "https://api.lava.ru" ∧
    ((self._request transport method path data).2).map
        (fun r => (r.url, r.authorization)) =
      [( Lava.path_prefix ++ path, self.api_key)] := by
  refine ⟨rfl, ?_⟩
  rw [Lava.request_trace]
  rfl

/-- Claim C9: `invoice_info` enforces no "exactly one of `id`/`order_id`"
rule: for every combination of the two optional parameters (both unset,
either one set, both set) it never raises a local `ValidationError`, and
it transmits the mapping as-is with the unset keys stripped. -/
theorem invoice_info_no_exactly_one_enforcement (self : Lava)
    (transport : Transport) (id : Option String)
    (order_id : Option String) :
    (∀ fields, (self.invoice_info transport id order_id).1 ≠
      Outcome.validationError fields) ∧
    (self.invoice_info transport id order_id).2 =
      [⟨HttpMethod.POST, Lava.path_prefix ++ "/invoice/info", self.api_key,
        stripNone [("id", id.map PyValue.str),
          ("order_id", order_id.map PyValue.str)]⟩] :=
  ⟨fun fields => Lava.request_not_validation self transport HttpMethod.POST
      "/invoice/info" [("id", id.map PyValue.str),
        ("order_id", order_id.map PyValue.str)] fields,
    Lava.request_trace self transport HttpMethod.POST "/invoice/info" _⟩

/-- Claim C10: construction validates nothing: for every credential
string, including the empty string, `Lava(api_key)` simply stores the
string unchanged (and, being plain construction, issues no request), and
every request later dispatched by that client carries exactly that string
as its `Authorization` header. -/
theorem credential_stored_and_sent_verbatim (api_key : String)
    (transport : Transport) (method : HttpMethod) (path : String)
    (data : List (String × Option PyValue)) :
    (Lava.mk api_key).api_key = api_key ∧
    (Lava.mk "").api_key = "" ∧
    ((Lava.mk api_key)._request transport method path data).2.map
        (fun r => r.authorization) = [api_key] := by
  refine ⟨rfl, rfl, ?_⟩
  rw [Lava.request_trace]
  rfl
